import Mathlib

/-
Verification of the MCP protocol gateway of this repository against its
specification.  The repository holds several near-duplicate server variants;
the dispatch logic of the three variants the claims cite is embedded here:

  * namespace P2 — the zod-validated express switch variant
    (src/unnamed/part_002: JsonRpcRequestSchema, app.post handler);
  * namespace P3 — the MCPServer class variant with batch support and the
    SSE keep-alive endpoint (src/unnamed/part_003);
  * namespace P4 — the multi-tool variant with pure stub handlers
    (src/unnamed/part_004: MCPRequestSchema, app.post handler).

Wire payloads are modelled by an inductive JSON value type; JavaScript
truthiness, member access and template-literal coercion are given explicit
counterparts.  The external joke APIs reached through fetch are the out of
scope collaborators, modelled by an oracle from URL to the response fields
the handlers read.  Each handler result carries, next to the response, the
list of tool handler bodies that were entered, instrumenting the
"handler is never invoked" properties.
-/

/-- A decoded JSON wire value.  JavaScript undefined is represented by
absence (Option elsewhere), not by a constructor. -/
inductive Json where
  | null : Json
  | bool : Bool → Json
  | num : Int → Json
  | str : String → Json
  | arr : List Json → Json
  | obj : List (String × Json) → Json

/-- First-match field lookup in an object literal. -/
def Json.lookupField : List (String × Json) → String → Option Json
  | [], _ => none
  | (k, v) :: rest, key => if k == key then some v else Json.lookupField rest key

/-- JavaScript member access x.k: a field of an object, undefined (none)
on a missing field or a non-object receiver. -/
def Json.get : Json → String → Option Json
  | Json.obj fs, k => Json.lookupField fs k
  | _, _ => none

/-- JavaScript truthiness of a value: null, false, 0 and the empty string
are falsy, every array and object is truthy. -/
def Json.truthy : Json → Bool
  | Json.null => false
  | Json.bool b => b
  | Json.num n => n != 0
  | Json.str s => s != ""
  | Json.arr _ => true
  | Json.obj _ => true

mutual

/-- JavaScript template-literal coercion of a value to a string. -/
def Json.toJSString : Json → String
  | Json.null => "null"
  | Json.bool true => "true"
  | Json.bool false => "false"
  | Json.num n => toString n
  | Json.str s => s
  | Json.arr xs => Json.arrJoin xs
  | Json.obj _ => "[object Object]"

/-- Array.prototype.toString: elements joined with commas, null elements
rendered empty. -/
def Json.arrJoin : List Json → String
  | [] => ""
  | [Json.null] => ""
  | [x] => Json.toJSString x
  | Json.null :: xs => "," ++ Json.arrJoin xs
  | x :: xs => Json.toJSString x ++ "," ++ Json.arrJoin xs

end

/-- Coercion of a possibly-undefined value, as a template literal renders it. -/
def toJSStringU : Option Json → String
  | none => "undefined"
  | some v => Json.toJSString v

/-- Truthiness of a possibly-undefined value (undefined is falsy). -/
def truthyO : Option Json → Bool
  | none => false
  | some v => v.truthy

/-- Optional-chaining member access p?.k on a possibly-undefined receiver. -/
def pget (p : Option Json) (k : String) : Option Json :=
  match p with
  | none => none
  | some j => j.get k

/-- Strict equality of a possibly-undefined value against a string literal,
as in switch cases and === comparisons of the sources. -/
def jeqStr : Option Json → String → Bool
  | some (Json.str s), t => s == t
  | _, _ => false

/-- The idiom v || null of the catch handlers: a falsy or missing id
degenerates to null. -/
def jsOrNull : Option Json → Json
  | none => Json.null
  | some v => if v.truthy then v else Json.null

/-- The idiom params.arguments || {} shared by the tools/call handlers. -/
def argsOf (params : Option Json) : Json :=
  match pget params "arguments" with
  | none => Json.obj []
  | some v => if v.truthy then v else Json.obj []

/-- Whether the first character list starts the second. -/
def leadEq : List Char → List Char → Bool
  | [], _ => true
  | _ :: _, [] => false
  | a :: as, b :: bs => a == b && leadEq as bs

/-- Whether the first character list occurs contiguously in the second. -/
def scanSub : List Char → List Char → Bool
  | pat, [] => leadEq pat []
  | pat, a :: rest => leadEq pat (a :: rest) || scanSub pat rest

/-- Whether pat occurs as a contiguous substring of s. -/
def strContains (s pat : String) : Bool :=
  scanSub pat.toList s.toList

/-- Whether an Except is a success. -/
def isOkE {α β : Type} : Except α β → Bool
  | Except.ok _ => true
  | Except.error _ => false

/-- A JSON-RPC id: zod validates it as a string or a number. -/
inductive RpcId where
  | str : String → RpcId
  | num : Int → RpcId
  deriving DecidableEq

/-- The wire form of a validated id. -/
def RpcId.toJson : RpcId → Json
  | RpcId.str s => Json.str s
  | RpcId.num n => Json.num n

/-- One zod validation diagnostic: the offending field path and a message. -/
structure ZodIssue where
  path : String
  message : String
  deriving DecidableEq

/-- A JSON-RPC error object; data carries the zod diagnostics when present. -/
structure RpcError where
  code : Int
  message : String
  data : List ZodIssue
  deriving DecidableEq

/-- A content block of a tool result; only text blocks occur. -/
inductive ContentBlock where
  | text : String → ContentBlock
  deriving DecidableEq

/-- One property of a tool input schema. -/
structure PropDef where
  type : String
  description : String
  enum : List String
  deriving DecidableEq

/-- A tool input schema: an object schema with named properties and a list
of required property names. -/
structure InputSchema where
  type : String
  properties : List (String × PropDef)
  required : List String
  deriving DecidableEq

/-- A registered tool definition. -/
structure ToolDef where
  name : String
  description : String
  inputSchema : InputSchema
  deriving DecidableEq

/-- The structured tools/call result of the part_004 variant before it is
serialized: the source renders it with JSON.stringify(result, null, 2) into
one text content block; the rendering is injective, so the structured value
is kept. -/
inductive P4CallResult where
  | joke : String → P4CallResult
  | factR : String → P4CallResult
  | recipes : String → List String → String → P4CallResult
  deriving DecidableEq

/-- The result alternatives the embedded dispatchers produce. -/
inductive ResultVal where
  | initRes : String → String → String → List String → ResultVal
  | toolsRes : List ToolDef → ResultVal
  | callRes : List ContentBlock → ResultVal
  | callRes4 : P4CallResult → ResultVal
  | emptyRes : ResultVal
  | completionRes : ResultVal
  deriving DecidableEq

/-- Exactly one of result or error. -/
inductive ROutcome where
  | ok : ResultVal → ROutcome
  | err : RpcError → ROutcome
  deriving DecidableEq

/-- A JSON-RPC response: the echoed id (none when the id field is absent
after serialization, some Json.null when it is an explicit null) and the
outcome. -/
structure RpcResponse where
  id : Option Json
  outcome : ROutcome

/-- A dispatch outcome: the response, and the names of the tool handler
bodies that were entered while producing it. -/
structure HOut where
  resp : RpcResponse
  calls : List String

/-- A transport reply: one response object, or an array of responses. -/
inductive Reply where
  | one : RpcResponse → Reply
  | many : List RpcResponse → Reply

/-- A batch-capable dispatch outcome. -/
structure BOut where
  reply : Reply
  calls : List String

/-- The envelope fields after a successful zod parse. -/
structure ParsedReq where
  id : RpcId
  method : String
  params : Option Json

/-- What a tool handler reads off an external API response: the ok flag and
the payload fields the handlers consume (data.value, data.joke, the
category array). -/
structure FetchResp where
  ok : Bool
  value : String
  joke : String
  cats : List String

/-- The external joke APIs, abstracted as a map from URL to response. -/
abbrev Oracle := String → FetchResp

/-- A fixed benign oracle for concrete evaluations. -/
def oracle0 : Oracle := fun _ => ⟨true, "a chuck joke", "a dad joke", ["dev", "food"]⟩

/-- Builds a wire request object with the given id, method and params. -/
def mkReq (i : RpcId) (m : String) (p : Option Json) : Json :=
  Json.obj ([("jsonrpc", Json.str "2.0"), ("id", i.toJson), ("method", Json.str m)] ++
    (match p with
     | some v => [("params", v)]
     | none => []))

/-- z.union([z.string(), z.number()]): a valid id field. -/
def readId : Option Json → Option RpcId
  | some (Json.str s) => some (RpcId.str s)
  | some (Json.num n) => some (RpcId.num n)
  | _ => none

/-- z.string(): a method field, any string accepted. -/
def readMethodStr : Option Json → Option String
  | some (Json.str m) => some m
  | _ => none

/-- z.literal applied to the jsonrpc field. -/
def jsonrpcLit : Option Json → Bool
  | some (Json.str s) => s == "2.0"
  | _ => false

/-- Whether a value is a JSON object. -/
def isObjB : Json → Bool
  | Json.obj _ => true
  | _ => false

namespace P2

/-- The tool registry of part_002, in registration order (lines 8-50). -/
def toolDefinitions : List ToolDef :=
  [⟨"get-chuck-joke", "Get a random Chuck Norris joke", ⟨"object", [], []⟩⟩,
   ⟨"get-chuck-joke-by-category", "Get a random Chuck Norris joke by category",
     ⟨"object", [("category", ⟨"string", "Category of the Chuck Norris joke", []⟩)], ["category"]⟩⟩,
   ⟨"get-chuck-categories", "Get all available categories for Chuck Norris jokes", ⟨"object", [], []⟩⟩,
   ⟨"get-dad-joke", "Get a random Dad joke", ⟨"object", [], []⟩⟩]

/-- The diagnostics zod collects for an object payload failing
JsonRpcRequestSchema of part_002 (lines 53-58): one issue per offending
field, in shape order jsonrpc, id, method; params is z.any() and never
fails. -/
def JsonRpcRequestSchemaIssues (body : Json) : List ZodIssue :=
  (if jsonrpcLit (body.get "jsonrpc") then [] else [⟨"jsonrpc", "Invalid literal value, expected \"2.0\""⟩])
  ++ (if (readId (body.get "id")).isSome then [] else [⟨"id", "Invalid input"⟩])
  ++ (if (readMethodStr (body.get "method")).isSome then [] else [⟨"method", "Required"⟩])

/-- JsonRpcRequestSchema.parse of part_002: jsonrpc must be the literal
"2.0", id a string or number, method any string, params unconstrained; a
non-object payload fails with a single top-level issue. -/
def JsonRpcRequestSchemaParse (body : Json) : Except (List ZodIssue) ParsedReq :=
  match body with
  | Json.obj _ =>
    match readId (body.get "id"), readMethodStr (body.get "method"), jsonrpcLit (body.get "jsonrpc") with
    | some i, some m, true => Except.ok ⟨i, m, body.get "params"⟩
    | _, _, _ => Except.error (JsonRpcRequestSchemaIssues body)
  | _ => Except.error [⟨"", "Expected object, received other"⟩]

/-- The tools/call branch of part_002 (lines 103-224): name-presence check,
arguments defaulting, the four inlined tool handlers, unknown-tool error. -/
def toolsCall (o : Oracle) (i : RpcId) (params : Option Json) : HOut :=
  if !(truthyO params && truthyO (pget params "name")) then
    ⟨⟨some i.toJson, ROutcome.err ⟨-32602, "Invalid params: tool name is required", []⟩⟩, []⟩
  else
    let name := pget params "name"
    let toolArgs := argsOf params
    if jeqStr name "get-chuck-joke" then
      let r := o "https://api.chucknorris.io/jokes/random"
      ⟨⟨some i.toJson, ROutcome.ok (ResultVal.callRes [ContentBlock.text r.value])⟩, ["get-chuck-joke"]⟩
    else if jeqStr name "get-chuck-joke-by-category" then
      if !(truthyO (toolArgs.get "category")) then
        ⟨⟨some i.toJson, ROutcome.err ⟨-32602, "Invalid params: category is required", []⟩⟩, []⟩
      else
        let r := o ("https://api.chucknorris.io/jokes/random?category=" ++ toJSStringU (toolArgs.get "category"))
        if !r.ok then
          ⟨⟨some i.toJson, ROutcome.err ⟨-32603, "Invalid category", []⟩⟩, ["get-chuck-joke-by-category"]⟩
        else
          ⟨⟨some i.toJson, ROutcome.ok (ResultVal.callRes [ContentBlock.text r.value])⟩, ["get-chuck-joke-by-category"]⟩
    else if jeqStr name "get-chuck-categories" then
      let r := o "https://api.chucknorris.io/jokes/categories"
      ⟨⟨some i.toJson, ROutcome.ok (ResultVal.callRes [ContentBlock.text ("Available categories: " ++ String.intercalate ", " r.cats)])⟩, ["get-chuck-categories"]⟩
    else if jeqStr name "get-dad-joke" then
      let r := o "https://icanhazdadjoke.com/"
      ⟨⟨some i.toJson, ROutcome.ok (ResultVal.callRes [ContentBlock.text r.joke])⟩, ["get-dad-joke"]⟩
    else
      ⟨⟨some i.toJson, ROutcome.err ⟨-32601, "Unknown tool: " ++ toJSStringU name, []⟩⟩, []⟩

/-- The POST /mcp handler of part_002 (lines 61-274): zod validation, the
method switch, and the ZodError catch answering -32600 with the diagnostics
and id req.body.id || null. -/
def handleMcpPost (o : Oracle) (body : Json) : HOut :=
  match JsonRpcRequestSchemaParse body with
  | Except.error issues =>
    ⟨⟨some (jsOrNull (body.get "id")), ROutcome.err ⟨-32600, "Invalid Request", issues⟩⟩, []⟩
  | Except.ok r =>
    if r.method = "initialize" then
      ⟨⟨some r.id.toJson, ROutcome.ok (ResultVal.initRes "2024-11-05" "jokes-mcp-server" "1.0.0" ["tools", "logging"])⟩, []⟩
    else if r.method = "tools/list" then
      ⟨⟨some r.id.toJson, ROutcome.ok (ResultVal.toolsRes toolDefinitions)⟩, []⟩
    else if r.method = "tools/call" then
      toolsCall o r.id r.params
    else if r.method = "notifications/initialized" then
      ⟨⟨some r.id.toJson, ROutcome.ok ResultVal.emptyRes⟩, []⟩
    else if r.method = "logging/setLevel" then
      ⟨⟨some r.id.toJson, ROutcome.ok ResultVal.emptyRes⟩, []⟩
    else
      ⟨⟨some r.id.toJson, ROutcome.err ⟨-32601, "Method not found: " ++ r.method, []⟩⟩, []⟩

end P2

namespace P3

/-- The tool registry of part_003, in registration order (lines 11-54);
the category property additionally declares an enum. -/
def toolDefinitions : List ToolDef :=
  [⟨"get-chuck-joke", "Get a random Chuck Norris joke", ⟨"object", [], []⟩⟩,
   ⟨"get-chuck-joke-by-category", "Get a random Chuck Norris joke by category",
     ⟨"object",
      [("category", ⟨"string", "Category of the Chuck Norris joke",
        ["animal", "career", "celebrity", "dev", "explicit", "fashion", "food", "history",
         "money", "movie", "music", "political", "religion", "science", "sport", "travel"]⟩)],
      ["category"]⟩⟩,
   ⟨"get-chuck-categories", "Get all available categories for Chuck Norris jokes", ⟨"object", [], []⟩⟩,
   ⟨"get-dad-joke", "Get a random Dad joke", ⟨"object", [], []⟩⟩]

/-- MCPServer.executeTool of part_003 (lines 149-256).  The id is echoed
as found on the wire (absent stays absent). -/
def executeTool (o : Oracle) (i : Option Json) (params : Option Json) : HOut :=
  if !(truthyO params && truthyO (pget params "name")) then
    ⟨⟨i, ROutcome.err ⟨-32602, "Invalid params: tool name is required", []⟩⟩, []⟩
  else
    let name := pget params "name"
    let toolArgs := argsOf params
    if jeqStr name "get-chuck-joke" then
      let r := o "https://api.chucknorris.io/jokes/random"
      ⟨⟨i, ROutcome.ok (ResultVal.callRes [ContentBlock.text r.value])⟩, ["get-chuck-joke"]⟩
    else if jeqStr name "get-chuck-joke-by-category" then
      if !(truthyO (toolArgs.get "category")) then
        ⟨⟨i, ROutcome.err ⟨-32602, "Invalid params: category is required", []⟩⟩, []⟩
      else
        let r := o ("https://api.chucknorris.io/jokes/random?category=" ++ toJSStringU (toolArgs.get "category"))
        if !r.ok then
          ⟨⟨i, ROutcome.err ⟨-32603, "Invalid category", []⟩⟩, ["get-chuck-joke-by-category"]⟩
        else
          ⟨⟨i, ROutcome.ok (ResultVal.callRes [ContentBlock.text r.value])⟩, ["get-chuck-joke-by-category"]⟩
    else if jeqStr name "get-chuck-categories" then
      let r := o "https://api.chucknorris.io/jokes/categories"
      ⟨⟨i, ROutcome.ok (ResultVal.callRes [ContentBlock.text ("Available categories: " ++ String.intercalate ", " r.cats)])⟩, ["get-chuck-categories"]⟩
    else if jeqStr name "get-dad-joke" then
      let r := o "https://icanhazdadjoke.com/"
      ⟨⟨i, ROutcome.ok (ResultVal.callRes [ContentBlock.text r.joke])⟩, ["get-dad-joke"]⟩
    else
      ⟨⟨i, ROutcome.err ⟨-32601, "Unknown tool: " ++ toJSStringU name, []⟩⟩, []⟩

/-- MCPServer.processSingleRequest of part_003 (lines 70-147): the method
switch over the destructured envelope; no zod validation is performed, and
every request, a notification included, is answered.  The isInitialized
flag the source sets on initialize feeds only the /health endpoint and is
not modelled. -/
def processSingleRequest (o : Oracle) (body : Json) : HOut :=
  let i := body.get "id"
  let m := body.get "method"
  if jeqStr m "initialize" then
    ⟨⟨i, ROutcome.ok (ResultVal.initRes "2024-11-05" "jokes-mcp-server" "1.0.0" ["tools", "logging"])⟩, []⟩
  else if jeqStr m "initialized" then
    ⟨⟨i, ROutcome.ok ResultVal.emptyRes⟩, []⟩
  else if jeqStr m "tools/list" then
    ⟨⟨i, ROutcome.ok (ResultVal.toolsRes toolDefinitions)⟩, []⟩
  else if jeqStr m "tools/call" then
    executeTool o i (body.get "params")
  else if jeqStr m "completion/complete" then
    ⟨⟨i, ROutcome.ok ResultVal.completionRes⟩, []⟩
  else
    ⟨⟨i, ROutcome.err ⟨-32601, "Method not found: " ++ toJSStringU m, []⟩⟩, []⟩

/-- MCPServer.handleRequest of part_003 (lines 58-68): an array payload is
mapped element-wise over processSingleRequest (Promise.all keeps request
order), anything else is a single request. -/
def handleRequest (o : Oracle) (body : Json) : BOut :=
  match body with
  | Json.arr xs =>
    ⟨Reply.many (xs.map (fun b => (processSingleRequest o b).resp)),
     (xs.map (fun b => (processSingleRequest o b).calls)).flatten⟩
  | b => ⟨Reply.one (processSingleRequest o b).resp, (processSingleRequest o b).calls⟩

/-- The keep-alive period of the SSE channel: setInterval(..., 30000) in
part_003 line 296. -/
def keepAliveIntervalMs : Nat := 30000

/-- Discrete-time model of the SSE keep-alive of part_003 (lines 283-301):
the interval timer armed at connection open emits a ping at every positive
multiple of the period, and the close handler clears the interval, so no
ping is emitted at or after the disconnect time d. -/
def pingEmitted (d t : Nat) : Bool :=
  (t % keepAliveIntervalMs == 0) && (t != 0) && decide (t < d)

end P3

namespace P4

/-- The tool list of part_004 as served by tools/list (lines 38-95). -/
def toolDefinitions : List ToolDef :=
  [⟨"get_joke", "Get a random dad joke or Chuck Norris joke",
     ⟨"object", [("type", ⟨"string", "Type of joke to retrieve", ["dad", "chuck"]⟩)], ["type"]⟩⟩,
   ⟨"get_fact", "Get a random cat fact or number fact",
     ⟨"object",
      [("type", ⟨"string", "Type of fact to retrieve", ["cat", "number"]⟩),
       ("number", ⟨"integer", "Specific number for number facts (optional)", []⟩)],
      ["type"]⟩⟩,
   ⟨"search_recipe", "Search for recipes by ingredients or dish name",
     ⟨"object", [("query", ⟨"string", "Search query for recipes", []⟩)], ["query"]⟩⟩]

/-- The diagnostics for an object payload failing MCPRequestSchema of
part_004 (lines 8-13), in shape order jsonrpc, method, id. -/
def MCPRequestSchemaIssues (body : Json) : List ZodIssue :=
  (if jsonrpcLit (body.get "jsonrpc") then [] else [⟨"jsonrpc", "Invalid literal value, expected \"2.0\""⟩])
  ++ (if (readMethodStr (body.get "method")).isSome then [] else [⟨"method", "Required"⟩])
  ++ (if (readId (body.get "id")).isSome then [] else [⟨"id", "Invalid input"⟩])

/-- MCPRequestSchema.parse of part_004: same acceptance condition as the
part_002 schema (jsonrpc literal, any string method, string-or-number id,
unconstrained params). -/
def MCPRequestSchemaParse (body : Json) : Except (List ZodIssue) ParsedReq :=
  match body with
  | Json.obj _ =>
    match readId (body.get "id"), readMethodStr (body.get "method"), jsonrpcLit (body.get "jsonrpc") with
    | some i, some m, true => Except.ok ⟨i, m, body.get "params"⟩
    | _, _, _ => Except.error (MCPRequestSchemaIssues body)
  | _ => Except.error [⟨"", "Expected object, received other"⟩]

/-- A ZodError reaches the catch of part_004 as an Error whose message is
the Zod rendering of the issue list; the exact rendering is irrelevant to
the claims (only the -32603 code is), so a simple rendering is used. -/
def zodMessage (issues : List ZodIssue) : String :=
  String.intercalate "; " (issues.map (fun z => z.path ++ ": " ++ z.message))

/-- The dad joke constant of part_004 line 105. -/
def dadJoke : String := "Why don\x27t scientists trust atoms? Because they make up everything!"

/-- The Chuck Norris joke constant of part_004 line 107. -/
def chuckJoke : String := "Chuck Norris doesn\x27t read books. He stares them down until he gets the information he wants."

/-- The cat fact constant of part_004 line 113. -/
def catFact : String := "Cats spend 70% of their lives sleeping."

/-- args.number || 42 rendered into the number-fact template literal. -/
def numOr42 (args : Json) : String :=
  match args.get "number" with
  | some v => if v.truthy then Json.toJSString v else "42"
  | none => "42"

/-- The POST /mcp handler of part_004 (lines 16-169): zod validation, the
method switch, pure stub tool handlers with no argument validation, and the
catch that surfaces every thrown error — a ZodError as well as the
unknown-tool Error — as code -32603 with id req.body?.id || null. -/
def handleMcpPost (body : Json) : HOut :=
  match MCPRequestSchemaParse body with
  | Except.error issues =>
    ⟨⟨some (jsOrNull (body.get "id")), ROutcome.err ⟨-32603, zodMessage issues, []⟩⟩, []⟩
  | Except.ok r =>
    if r.method = "initialize" then
      ⟨⟨some r.id.toJson, ROutcome.ok (ResultVal.initRes "1.0.0" "Multi-Tool MCP Server" "1.0.0" ["tools"])⟩, []⟩
    else if r.method = "tools/list" then
      ⟨⟨some r.id.toJson, ROutcome.ok (ResultVal.toolsRes toolDefinitions)⟩, []⟩
    else if r.method = "tools/call" then
      let name := pget r.params "name"
      let args := argsOf r.params
      if jeqStr name "get_joke" then
        ⟨⟨some r.id.toJson,
          ROutcome.ok (ResultVal.callRes4 (P4CallResult.joke
            (if jeqStr (args.get "type") "dad" then dadJoke else chuckJoke)))⟩, ["get_joke"]⟩
      else if jeqStr name "get_fact" then
        ⟨⟨some r.id.toJson,
          ROutcome.ok (ResultVal.callRes4 (P4CallResult.factR
            (if jeqStr (args.get "type") "cat" then catFact
             else "The number " ++ numOr42 args ++ " is interesting!")))⟩, ["get_fact"]⟩
      else if jeqStr name "search_recipe" then
        ⟨⟨some r.id.toJson,
          ROutcome.ok (ResultVal.callRes4 (P4CallResult.recipes
            ("Recipe for " ++ toJSStringU (args.get "query"))
            ["ingredient1", "ingredient2"] "Mix and cook!"))⟩, ["search_recipe"]⟩
      else
        ⟨⟨some (jsOrNull (body.get "id")),
          ROutcome.err ⟨-32603, "Unknown tool: " ++ toJSStringU name, []⟩⟩, []⟩
    else
      ⟨⟨some r.id.toJson, ROutcome.err ⟨-32601, "Method not found", []⟩⟩, []⟩

end P4

theorem readId_toJson (i : RpcId) : readId (some i.toJson) = some i := by
  cases i <;> rfl

theorem parse2_mkReq (i : RpcId) (m : String) (p : Option Json) :
    P2.JsonRpcRequestSchemaParse (mkReq i m p) = Except.ok ⟨i, m, p⟩ := by
  cases i <;> cases p <;> rfl

theorem parse4_mkReq (i : RpcId) (m : String) (p : Option Json) :
    P4.MCPRequestSchemaParse (mkReq i m p) = Except.ok ⟨i, m, p⟩ := by
  cases i <;> cases p <;> rfl

theorem mkReq_get_id (i : RpcId) (m : String) (p : Option Json) :
    (mkReq i m p).get "id" = some i.toJson := by
  cases p <;> rfl

theorem toolsCall_id (o : Oracle) (i : RpcId) (params : Option Json) :
    (P2.toolsCall o i params).resp.id = some i.toJson := by
  simp only [P2.toolsCall]
  repeat' split
  all_goals rfl

theorem executeTool_id (o : Oracle) (j : Option Json) (params : Option Json) :
    (P3.executeTool o j params).resp.id = j := by
  simp only [P3.executeTool]
  repeat' split
  all_goals rfl

theorem leadEq_self_append (a b : List Char) : leadEq a (a ++ b) = true := by
  induction a with
  | nil => rfl
  | cons c cs ih => simp [leadEq, ih]

theorem scanSub_suffix (pre pat : List Char) : scanSub pat (pre ++ pat) = true := by
  induction pre with
  | nil =>
    cases pat with
    | nil => rfl
    | cons c cs =>
      have h := leadEq_self_append (c :: cs) []
      simp only [List.append_nil] at h
      simp [scanSub, h]
  | cons p ps ih => simp [scanSub, ih]

theorem strContains_append_self (s m : String) : strContains (s ++ m) m = true := by
  have h : (s ++ m).toList = s.toList ++ m.toList := by
    simp [String.toList]
  simp [strContains, h, scanSub_suffix]

/-- C1 (amended): the part_002 envelope validator accepts a payload exactly
when it is an object whose jsonrpc equals the literal "2.0", whose id is a
string or a number, and whose method is any string — an empty method and
non-object params are accepted, contrary to the claim as stated.  On a
validation failure part_002 answers InvalidRequest -32600 carrying the
complete diagnostics list, with an issue for every offending field of an
object payload; the part_004 variant surfaces the same ZodError through its
generic catch as code -32603 instead. -/
theorem C1_envelope_validation (body : Json) (o : Oracle) :
    (isOkE (P2.JsonRpcRequestSchemaParse body) =
      (isObjB body && jsonrpcLit (body.get "jsonrpc") &&
        (readId (body.get "id")).isSome && (readMethodStr (body.get "method")).isSome))
    ∧ (∀ issues, P2.JsonRpcRequestSchemaParse body = Except.error issues →
        (P2.handleMcpPost o body).resp.outcome = ROutcome.err ⟨-32600, "Invalid Request", issues⟩
        ∧ (isObjB body = true →
            (jsonrpcLit (body.get "jsonrpc") = false → issues.any (fun z => z.path == "jsonrpc") = true)
            ∧ ((readId (body.get "id")).isSome = false → issues.any (fun z => z.path == "id") = true)
            ∧ ((readMethodStr (body.get "method")).isSome = false → issues.any (fun z => z.path == "method") = true)))
    ∧ (∀ issues4, P4.MCPRequestSchemaParse body = Except.error issues4 →
        (P4.handleMcpPost body).resp.outcome = ROutcome.err ⟨-32603, P4.zodMessage issues4, []⟩) := by
  refine ⟨?_, ?_, ?_⟩
  · cases body <;> simp only [P2.JsonRpcRequestSchemaParse, isObjB, isOkE, Bool.false_and, Bool.true_and]
    case obj fs =>
      cases hI : readId ((Json.obj fs).get "id") <;>
        cases hM : readMethodStr ((Json.obj fs).get "method") <;>
        cases hJ : jsonrpcLit ((Json.obj fs).get "jsonrpc") <;>
        simp [hI, hM, hJ, isOkE]
  · intro issues h
    refine ⟨by simp [P2.handleMcpPost, h], ?_⟩
    intro hobj
    cases body <;> simp [isObjB] at hobj
    case obj fs =>
      have hiss : issues = P2.JsonRpcRequestSchemaIssues (Json.obj fs) := by
        simp only [P2.JsonRpcRequestSchemaParse] at h
        split at h
        · exact absurd h (by simp)
        · cases h
          rfl
      subst hiss
      refine ⟨?_, ?_, ?_⟩ <;> intro hx <;>
        simp [P2.JsonRpcRequestSchemaIssues, hx, List.any_append]
  · intro issues4 h
    simp [P4.handleMcpPost, h]

/-- C1 counterexample: the part_002 schema accepts a payload whose method is
the empty string, and one whose params is the number 5 rather than a
structured object, refuting "accepts only if method is a non-empty string
and params, when present, is a structured object". -/
theorem C1_envelope_validation_cx :
    P2.JsonRpcRequestSchemaParse
      (Json.obj [("jsonrpc", Json.str "2.0"), ("id", Json.num 1), ("method", Json.str "")]) =
      Except.ok ⟨RpcId.num 1, "", none⟩
    ∧ P2.JsonRpcRequestSchemaParse
      (Json.obj [("jsonrpc", Json.str "2.0"), ("id", Json.num 1), ("method", Json.str "m"), ("params", Json.num 5)]) =
      Except.ok ⟨RpcId.num 1, "m", some (Json.num 5)⟩ :=
  ⟨rfl, rfl⟩

/-- C1 witness: a payload offending on all three fields is answered -32600
with the complete three-issue diagnostics list. -/
theorem C1_envelope_validation_witness :
    P2.JsonRpcRequestSchemaParse (Json.obj [("id", Json.bool true)]) =
      Except.error [⟨"jsonrpc", "Invalid literal value, expected \"2.0\""⟩,
        ⟨"id", "Invalid input"⟩, ⟨"method", "Required"⟩]
    ∧ (P2.handleMcpPost oracle0 (Json.obj [("id", Json.bool true)])).resp.outcome =
      ROutcome.err ⟨-32600, "Invalid Request",
        [⟨"jsonrpc", "Invalid literal value, expected \"2.0\""⟩,
         ⟨"id", "Invalid input"⟩, ⟨"method", "Required"⟩]⟩ :=
  ⟨rfl, ((C1_envelope_validation (Json.obj [("id", Json.bool true)]) oracle0).2.1 _ rfl).1⟩

/-- C2 (amended): a tools/call whose name is a truthy string resolving to
no registered tool invokes no handler and is answered with
"Unknown tool: <name>"; the code is -32601 in the part_002 and part_003
variants, but -32603 in part_004, whose unknown-tool branch throws and is
caught by the generic -32603 handler.  The empty tool name also resolves
to no registered tool, but being falsy it never reaches tool resolution in
part_002 and part_003: their !params.name guard answers -32602
"Invalid params: tool name is required" instead, again with no handler
invoked. -/
theorem C2_unknown_tool (o : Oracle) (i : RpcId) (j : Option Json) (nm : String)
    (h1 : nm ∉ ["get-chuck-joke", "get-chuck-joke-by-category", "get-chuck-categories", "get-dad-joke"])
    (h2 : nm ≠ "")
    (h4 : nm ∉ ["get_joke", "get_fact", "search_recipe"]) :
    P2.toolsCall o i (some (Json.obj [("name", Json.str nm)])) =
      ⟨⟨some i.toJson, ROutcome.err ⟨-32601, "Unknown tool: " ++ nm, []⟩⟩, []⟩
    ∧ P3.executeTool o j (some (Json.obj [("name", Json.str nm)])) =
      ⟨⟨j, ROutcome.err ⟨-32601, "Unknown tool: " ++ nm, []⟩⟩, []⟩
    ∧ P4.handleMcpPost (mkReq i "tools/call" (some (Json.obj [("name", Json.str nm)]))) =
      ⟨⟨some (jsOrNull (some i.toJson)), ROutcome.err ⟨-32603, "Unknown tool: " ++ nm, []⟩⟩, []⟩
    ∧ P2.toolsCall o i (some (Json.obj [("name", Json.str "")])) =
      ⟨⟨some i.toJson, ROutcome.err ⟨-32602, "Invalid params: tool name is required", []⟩⟩, []⟩
    ∧ P3.executeTool o j (some (Json.obj [("name", Json.str "")])) =
      ⟨⟨j, ROutcome.err ⟨-32602, "Invalid params: tool name is required", []⟩⟩, []⟩
    ∧ P4.handleMcpPost (mkReq i "tools/call" (some (Json.obj [("name", Json.str "")]))) =
      ⟨⟨some (jsOrNull (some i.toJson)), ROutcome.err ⟨-32603, "Unknown tool: ", []⟩⟩, []⟩ := by
  simp only [List.mem_cons, List.not_mem_nil, or_false, not_or] at h1 h4
  obtain ⟨n1, n2, n3, n4⟩ := h1
  obtain ⟨m1, m2, m3⟩ := h4
  refine ⟨?_, ?_, ?_, rfl, rfl, ?_⟩
  · simp [P2.toolsCall, truthyO, pget, Json.get, Json.lookupField, Json.truthy, jeqStr,
      toJSStringU, Json.toJSString, argsOf, h2, n1, n2, n3, n4]
  · simp [P3.executeTool, truthyO, pget, Json.get, Json.lookupField, Json.truthy, jeqStr,
      toJSStringU, Json.toJSString, argsOf, h2, n1, n2, n3, n4]
  · simp only [P4.handleMcpPost, parse4_mkReq, mkReq_get_id]
    simp [pget, Json.get, Json.lookupField, jeqStr, toJSStringU, Json.toJSString,
      argsOf, m1, m2, m3]
  · simp only [P4.handleMcpPost, parse4_mkReq, mkReq_get_id]
    rfl

/-- C2 counterexample: in part_004 the unknown-tool response carries code
-32603, not the claimed -32601 (the name is still embedded in the message). -/
theorem C2_unknown_tool_cx :
    P4.handleMcpPost (mkReq (RpcId.num 1) "tools/call" (some (Json.obj [("name", Json.str "nope")]))) =
      ⟨⟨some (Json.num 1), ROutcome.err ⟨-32603, "Unknown tool: nope", []⟩⟩, []⟩
    ∧ strContains "Unknown tool: nope" "nope" = true :=
  ⟨rfl, rfl⟩

/-- C2 witness: the unknown tool name "mystery-tool" at concrete inputs. -/
theorem C2_unknown_tool_witness :
    ("mystery-tool" ∉ ["get-chuck-joke", "get-chuck-joke-by-category", "get-chuck-categories", "get-dad-joke"])
    ∧ P2.toolsCall oracle0 (RpcId.num 1) (some (Json.obj [("name", Json.str "mystery-tool")])) =
      ⟨⟨some (Json.num 1), ROutcome.err ⟨-32601, "Unknown tool: mystery-tool", []⟩⟩, []⟩ :=
  ⟨by decide,
   (C2_unknown_tool oracle0 (RpcId.num 1) none "mystery-tool" (by decide) (by decide) (by decide)).1⟩

/-- C3: in the part_002 and part_003 variants, a tools/call naming a
registered tool whose inputSchema lists a required property that is absent
from params.arguments is answered InvalidParams -32602 with a message
naming the missing field, and no tool handler body is entered. -/
theorem C3_missing_required_argument (o : Oracle) (i : RpcId) (j : Option Json)
    (td : ToolDef) (req : String) (args : Json) :
    (td ∈ P2.toolDefinitions → req ∈ td.inputSchema.required → args.get req = none →
      P2.toolsCall o i (some (Json.obj [("name", Json.str td.name), ("arguments", args)])) =
        ⟨⟨some i.toJson, ROutcome.err ⟨-32602, "Invalid params: " ++ req ++ " is required", []⟩⟩, []⟩)
    ∧ (td ∈ P3.toolDefinitions → req ∈ td.inputSchema.required → args.get req = none →
      P3.executeTool o j (some (Json.obj [("name", Json.str td.name), ("arguments", args)])) =
        ⟨⟨j, ROutcome.err ⟨-32602, "Invalid params: " ++ req ++ " is required", []⟩⟩, []⟩) := by
  have hE : argsOf (some (Json.obj [("name", Json.str "get-chuck-joke-by-category"), ("arguments", args)])) =
      if args.truthy = true then args else Json.obj [] := by
    simp [argsOf, pget, Json.get, Json.lookupField]
  have hcond : args.get "category" = none →
      truthyO ((argsOf (some (Json.obj [("name", Json.str "get-chuck-joke-by-category"),
        ("arguments", args)]))).get "category") = false := by
    intro hargs
    rw [hE]
    cases hQ : args.truthy
    · simp [hQ, Json.get, Json.lookupField, truthyO]
    · simp [hQ, hargs, truthyO]
  constructor
  · intro htd hreq hargs
    fin_cases htd <;> simp at hreq
    subst hreq
    simp only [P2.toolsCall]
    rw [hcond hargs]
    rfl
  · intro htd hreq hargs
    fin_cases htd <;> simp at hreq
    subst hreq
    simp only [P3.executeTool]
    rw [hcond hargs]
    rfl

/-- C3 witness: calling get-chuck-joke-by-category with empty arguments is
rejected -32602 naming category, with no handler entered. -/
theorem C3_missing_required_argument_witness :
    (Json.obj []).get "category" = none
    ∧ P2.toolsCall oracle0 (RpcId.num 1)
        (some (Json.obj [("name", Json.str "get-chuck-joke-by-category"), ("arguments", Json.obj [])])) =
      ⟨⟨some (Json.num 1), ROutcome.err ⟨-32602, "Invalid params: category is required", []⟩⟩, []⟩ :=
  ⟨rfl,
   (C3_missing_required_argument oracle0 (RpcId.num 1) none
      ⟨"get-chuck-joke-by-category", "Get a random Chuck Norris joke by category",
        ⟨"object", [("category", ⟨"string", "Category of the Chuck Norris joke", []⟩)], ["category"]⟩⟩
      "category" (Json.obj [])).1 (by decide) (by decide) rfl⟩

/-- C4 (amended): a request accepted by the part_002 validator is answered,
for success and error outcomes alike, with its own id echoed verbatim,
including id 0 and the empty string; on a validation failure the error
response id is req.body.id || null, so a present-but-falsy id degenerates
to null, not only the unrecoverable-id case; the part_003 variant echoes
the id field as found, and answers every payload, notifications included. -/
theorem C4_response_id_echo (o : Oracle) (i : RpcId) (m : String) (p : Option Json) (body : Json) :
    ((P2.handleMcpPost o (mkReq i m p)).resp.id = some i.toJson)
    ∧ (isOkE (P2.JsonRpcRequestSchemaParse body) = false →
        (P2.handleMcpPost o body).resp.id = some (jsOrNull (body.get "id")))
    ∧ ((P3.processSingleRequest o body).resp.id = body.get "id") := by
  refine ⟨?_, ?_, ?_⟩
  · simp only [P2.handleMcpPost, parse2_mkReq]
    repeat' split
    all_goals first
      | rfl
      | exact toolsCall_id o i p
  · intro h
    cases hp : P2.JsonRpcRequestSchemaParse body with
    | ok r => rw [hp] at h; simp [isOkE] at h
    | error issues => simp [P2.handleMcpPost, hp]
  · simp only [P3.processSingleRequest]
    repeat' split
    all_goals first
      | rfl
      | exact executeTool_id o (body.get "id") (body.get "params")

/-- C4 counterexample: a payload that decodes fine but fails validation
while carrying the recoverable id 0 is answered with id null (the catch
computes req.body.id || null and 0 is falsy), and a part_003 notification
(no id) still receives a response, contrary to "notifications produce no
response at all". -/
theorem C4_response_id_echo_cx :
    (P2.handleMcpPost oracle0 (Json.obj [("jsonrpc", Json.str "1.0"), ("id", Json.num 0), ("method", Json.str "x")])).resp.id
      = some Json.null
    ∧ (Json.obj [("jsonrpc", Json.str "1.0"), ("id", Json.num 0), ("method", Json.str "x")]).get "id"
      = some (Json.num 0)
    ∧ (P3.processSingleRequest oracle0 (Json.obj [("jsonrpc", Json.str "2.0"), ("method", Json.str "initialized")])).resp
      = ⟨none, ROutcome.ok ResultVal.emptyRes⟩ :=
  ⟨rfl, rfl, rfl⟩

/-- C4 witness: the echo theorem applied to the failing-validation payload. -/
theorem C4_response_id_echo_witness :
    isOkE (P2.JsonRpcRequestSchemaParse (Json.obj [("jsonrpc", Json.str "1.0"), ("method", Json.str "x")])) = false
    ∧ (P2.handleMcpPost oracle0 (Json.obj [("jsonrpc", Json.str "1.0"), ("method", Json.str "x")])).resp.id
      = some (jsOrNull ((Json.obj [("jsonrpc", Json.str "1.0"), ("method", Json.str "x")]).get "id")) :=
  ⟨rfl,
   (C4_response_id_echo oracle0 (RpcId.num 1) "m" none
      (Json.obj [("jsonrpc", Json.str "1.0"), ("method", Json.str "x")])).2.1 rfl⟩

/-- C5 (amended): the part_003 variant maps a batch element-wise over the
single-request dispatcher, so responses come back in request order and one
failing element leaves its siblings untouched — concretely, a batch of a
failing call A and a succeeding tools/list B yields [error for A, result
for B]; the part_002 variant, however, rejects any array payload wholesale
with a single -32600 response (its schema parses one object only). -/
theorem C5_batch_dispatch (o : Oracle) (xs : List Json) :
    (P3.handleRequest o (Json.arr xs)).reply =
      Reply.many (xs.map (fun b => (P3.processSingleRequest o b).resp))
    ∧ (xs.map (fun b => (P3.processSingleRequest o b).resp)).length = xs.length
    ∧ P3.handleRequest oracle0 (Json.arr
        [mkReq (RpcId.num 1) "tools/call" (some (Json.obj [("name", Json.str "no-such-tool")])),
         mkReq (RpcId.num 2) "tools/list" none]) =
      ⟨Reply.many
        [⟨some (Json.num 1), ROutcome.err ⟨-32601, "Unknown tool: no-such-tool", []⟩⟩,
         ⟨some (Json.num 2), ROutcome.ok (ResultVal.toolsRes P3.toolDefinitions)⟩], []⟩ :=
  ⟨rfl, by simp, rfl⟩

/-- C5 counterexample: the part_002 handler answers the two-element batch
[failing A, succeeding B] with one -32600 InvalidRequest object — not with
an array holding an error for A and a result for B. -/
theorem C5_batch_dispatch_cx :
    P2.handleMcpPost oracle0 (Json.arr
        [mkReq (RpcId.num 1) "tools/call" (some (Json.obj [("name", Json.str "no-such-tool")])),
         mkReq (RpcId.num 2) "tools/list" none]) =
      ⟨⟨some Json.null, ROutcome.err ⟨-32600, "Invalid Request",
          [⟨"", "Expected object, received other"⟩]⟩⟩, []⟩ :=
  rfl

/-- C6 (amended): a method outside the fixed protocol set is answered
MethodNotFound -32601; the part_002 message embeds the offending method
name ("Method not found: <m>"), but the part_004 message is the constant
"Method not found" without the name. -/
theorem C6_method_not_found (o : Oracle) (i : RpcId) (p : Option Json) (m : String)
    (h2 : m ∉ ["initialize", "tools/list", "tools/call", "notifications/initialized", "logging/setLevel"])
    (h4 : m ∉ ["initialize", "tools/list", "tools/call"]) :
    (P2.handleMcpPost o (mkReq i m p)).resp =
      ⟨some i.toJson, ROutcome.err ⟨-32601, "Method not found: " ++ m, []⟩⟩
    ∧ strContains ("Method not found: " ++ m) m = true
    ∧ (P4.handleMcpPost (mkReq i m p)).resp =
      ⟨some i.toJson, ROutcome.err ⟨-32601, "Method not found", []⟩⟩ := by
  simp only [List.mem_cons, List.not_mem_nil, or_false, not_or] at h2 h4
  obtain ⟨a1, a2, a3, a4, a5⟩ := h2
  obtain ⟨b1, b2, b3⟩ := h4
  refine ⟨?_, strContains_append_self "Method not found: " m, ?_⟩
  · simp [P2.handleMcpPost, parse2_mkReq, a1, a2, a3, a4, a5]
  · simp [P4.handleMcpPost, parse4_mkReq, b1, b2, b3]

/-- C6 counterexample: in part_004 the response for the unknown method
"foo/bar" is -32601 with the fixed message "Method not found", which does
not contain the offending method name. -/
theorem C6_method_not_found_cx :
    (P4.handleMcpPost (mkReq (RpcId.num 1) "foo/bar" none)).resp =
      ⟨some (Json.num 1), ROutcome.err ⟨-32601, "Method not found", []⟩⟩
    ∧ strContains "Method not found" "foo/bar" = false :=
  ⟨rfl, rfl⟩

/-- C6 witness: the unknown method "bogus/method" at concrete inputs. -/
theorem C6_method_not_found_witness :
    ("bogus/method" ∉ ["initialize", "tools/list", "tools/call", "notifications/initialized", "logging/setLevel"])
    ∧ (P2.handleMcpPost oracle0 (mkReq (RpcId.num 1) "bogus/method" none)).resp =
      ⟨some (Json.num 1), ROutcome.err ⟨-32601, "Method not found: bogus/method", []⟩⟩ :=
  ⟨by decide,
   (C6_method_not_found oracle0 (RpcId.num 1) none "bogus/method" (by decide) (by decide)).1⟩

/-- C7: in the part_002 and part_003 variants a tools/call whose params or
params.name is absent is answered InvalidParams -32602 with the message
"Invalid params: tool name is required" and no handler body is entered;
and a call without params.arguments behaves exactly as one whose arguments
is the empty object. -/
theorem C7_tool_name_required (o : Oracle) (i : RpcId) (j : Option Json)
    (params : Option Json) (nmJ : Json)
    (h : pget params "name" = none) :
    P2.toolsCall o i params =
      ⟨⟨some i.toJson, ROutcome.err ⟨-32602, "Invalid params: tool name is required", []⟩⟩, []⟩
    ∧ P3.executeTool o j params =
      ⟨⟨j, ROutcome.err ⟨-32602, "Invalid params: tool name is required", []⟩⟩, []⟩
    ∧ P2.toolsCall o i (some (Json.obj [("name", nmJ)])) =
      P2.toolsCall o i (some (Json.obj [("name", nmJ), ("arguments", Json.obj [])]))
    ∧ P3.executeTool o j (some (Json.obj [("name", nmJ)])) =
      P3.executeTool o j (some (Json.obj [("name", nmJ), ("arguments", Json.obj [])])) :=
  ⟨by simp [P2.toolsCall, h, truthyO],
   by simp [P3.executeTool, h, truthyO],
   rfl, rfl⟩

/-- C7 witness: tools/call with empty params object at concrete inputs. -/
theorem C7_tool_name_required_witness :
    pget (some (Json.obj [])) "name" = none
    ∧ P2.toolsCall oracle0 (RpcId.num 1) (some (Json.obj [])) =
      ⟨⟨some (Json.num 1), ROutcome.err ⟨-32602, "Invalid params: tool name is required", []⟩⟩, []⟩ :=
  ⟨rfl,
   (C7_tool_name_required oracle0 (RpcId.num 1) none (some (Json.obj [])) Json.null rfl).1⟩

/-- C8: tools/list answers with the registry list itself, unfiltered and in
registration order, in the part_002 and part_003 variants; the embedded
dispatcher is a pure function of the immutable registry, so a second call
with no registry mutation coincides with the first. -/
theorem C8_tools_list_registry_order (o : Oracle) (i : RpcId) :
    (P2.handleMcpPost o (mkReq i "tools/list" none)).resp =
      ⟨some i.toJson, ROutcome.ok (ResultVal.toolsRes P2.toolDefinitions)⟩
    ∧ (P3.processSingleRequest o (mkReq i "tools/list" none)).resp =
      ⟨some i.toJson, ROutcome.ok (ResultVal.toolsRes P3.toolDefinitions)⟩
    ∧ P2.toolDefinitions.map ToolDef.name =
      ["get-chuck-joke", "get-chuck-joke-by-category", "get-chuck-categories", "get-dad-joke"]
    ∧ P3.toolDefinitions.map ToolDef.name =
      ["get-chuck-joke", "get-chuck-joke-by-category", "get-chuck-categories", "get-dad-joke"]
    ∧ P2.handleMcpPost o (mkReq i "tools/list" none) =
      P2.handleMcpPost o (mkReq i "tools/list" none) :=
  ⟨by cases i <;> rfl, by cases i <;> rfl, rfl, rfl, rfl⟩

/-- C9: in the discrete-time model of the part_003 SSE channel, a connection
still open past the 30000 ms interval sees a keep-alive ping at the
interval boundary, pings repeat at every positive multiple of the interval
while the connection is open, and no ping is emitted at or after the
disconnect time (the close handler clears the interval). -/
theorem C9_sse_keepalive (d : Nat) (h : P3.keepAliveIntervalMs < d) :
    P3.pingEmitted d P3.keepAliveIntervalMs = true
    ∧ (∀ k, 0 < k → k * P3.keepAliveIntervalMs < d →
        P3.pingEmitted d (k * P3.keepAliveIntervalMs) = true)
    ∧ (∀ t, d ≤ t → P3.pingEmitted d t = false) := by
  simp only [P3.keepAliveIntervalMs] at h
  refine ⟨?_, ?_, ?_⟩
  · simp [P3.pingEmitted, P3.keepAliveIntervalMs, h]
  · intro k hk hlt
    simp only [P3.keepAliveIntervalMs] at hlt
    have h1 : k * 30000 % 30000 = 0 := Nat.mul_mod_left k 30000
    have h2 : k * 30000 ≠ 0 := by positivity
    simp [P3.pingEmitted, P3.keepAliveIntervalMs, h1, h2, hlt]
  · intro t ht
    have hnl : ¬ t < d := by omega
    simp [P3.pingEmitted, P3.keepAliveIntervalMs, hnl]

/-- C9 witness: a client disconnecting at 60000 ms observes the ping at
30000 ms. -/
theorem C9_sse_keepalive_witness :
    P3.keepAliveIntervalMs < 60000 ∧ P3.pingEmitted 60000 P3.keepAliveIntervalMs = true :=
  ⟨by decide, (C9_sse_keepalive 60000 (by decide)).1⟩

/-- C10 (amended): tools/call argument validation in part_003 checks the
truthiness of each required property, never its declared type or enum:
whenever the required category holds any truthy value — enum member or not
— the handler body is entered and, when the external call succeeds, its
text is returned; the part_004 variant checks nothing at all, and get_joke
with any type value other than the string "dad" (including values outside
the declared enum) succeeds with the Chuck Norris branch. -/
theorem C10_truthiness_only_validation (o : Oracle) (j : Option Json) (i : RpcId) (v nv : Json)
    (hv : v.truthy = true) (hnv : jeqStr (some nv) "dad" = false) :
    (P3.executeTool o j (some (Json.obj [("name", Json.str "get-chuck-joke-by-category"),
        ("arguments", Json.obj [("category", v)])]))).calls = ["get-chuck-joke-by-category"]
    ∧ ((o ("https://api.chucknorris.io/jokes/random?category=" ++ Json.toJSString v)).ok = true →
        (P3.executeTool o j (some (Json.obj [("name", Json.str "get-chuck-joke-by-category"),
          ("arguments", Json.obj [("category", v)])]))).resp.outcome =
          ROutcome.ok (ResultVal.callRes [ContentBlock.text
            (o ("https://api.chucknorris.io/jokes/random?category=" ++ Json.toJSString v)).value]))
    ∧ P4.handleMcpPost (mkReq i "tools/call" (some (Json.obj [("name", Json.str "get_joke"),
        ("arguments", Json.obj [("type", nv)])]))) =
      ⟨⟨some i.toJson, ROutcome.ok (ResultVal.callRes4 (P4CallResult.joke P4.chuckJoke))⟩, ["get_joke"]⟩ := by
  have hE : argsOf (some (Json.obj [("name", Json.str "get-chuck-joke-by-category"),
      ("arguments", Json.obj [("category", v)])])) = Json.obj [("category", v)] := by
    simp [argsOf, pget, Json.get, Json.lookupField, Json.truthy]
  have t1 : (Json.obj [("name", Json.str "get-chuck-joke-by-category"),
      ("arguments", Json.obj [("category", v)])]).truthy = true := rfl
  have t2 : (Json.str "get-chuck-joke-by-category").truthy = true := rfl
  refine ⟨?_, ?_, ?_⟩
  · simp [P3.executeTool, hE, truthyO, hv, t1, t2, pget, Json.get, Json.lookupField,
      jeqStr, toJSStringU]
    all_goals split <;> rfl
  · intro hok
    simp [P3.executeTool, hE, truthyO, hv, t1, t2, hok, pget, Json.get, Json.lookupField,
      jeqStr, toJSStringU]
  · have e1 : jeqStr (some (Json.str "get_joke")) "get_joke" = true := rfl
    have t3 : (Json.obj [("type", nv)]).truthy = true := rfl
    simp only [P4.handleMcpPost, parse4_mkReq]
    simp [pget, Json.get, Json.lookupField, argsOf, t3, toJSStringU, e1, hnv]

/-- C10 counterexample: arguments containing the required property name
category with the (present but falsy) value "" are rejected -32602 by
part_003 and the handler is not entered, refuting "for every tools/call
whose arguments contain all required property names, the handler is
invoked". -/
theorem C10_truthiness_only_validation_cx :
    P3.executeTool oracle0 (some (Json.num 7))
        (some (Json.obj [("name", Json.str "get-chuck-joke-by-category"),
          ("arguments", Json.obj [("category", Json.str "")])])) =
      ⟨⟨some (Json.num 7), ROutcome.err ⟨-32602, "Invalid params: category is required", []⟩⟩, []⟩ :=
  rfl

/-- C10 witness: the out-of-enum category "not-a-category" still reaches the
handler, and get_joke with type "banana" (outside the declared enum) takes
the Chuck Norris branch. -/
theorem C10_truthiness_only_validation_witness :
    (Json.str "not-a-category").truthy = true
    ∧ jeqStr (some (Json.str "banana")) "dad" = false
    ∧ (P3.executeTool oracle0 none (some (Json.obj [("name", Json.str "get-chuck-joke-by-category"),
        ("arguments", Json.obj [("category", Json.str "not-a-category")])]))).calls =
      ["get-chuck-joke-by-category"]
    ∧ P4.handleMcpPost (mkReq (RpcId.num 3) "tools/call" (some (Json.obj [("name", Json.str "get_joke"),
        ("arguments", Json.obj [("type", Json.str "banana")])]))) =
      ⟨⟨some (Json.num 3), ROutcome.ok (ResultVal.callRes4 (P4CallResult.joke P4.chuckJoke))⟩, ["get_joke"]⟩ :=
  ⟨rfl, rfl,
   (C10_truthiness_only_validation oracle0 none (RpcId.num 3)
      (Json.str "not-a-category") (Json.str "banana") rfl rfl).1,
   (C10_truthiness_only_validation oracle0 none (RpcId.num 3)
      (Json.str "not-a-category") (Json.str "banana") rfl rfl).2.2⟩
